import Mathlib

/-!
Shallow embedding of `manim_mcp_server` (files `src/manim_mcp_server/models.py`,
`config.py`, `server.py`).

Python strings become `String`, lists become `List`, dictionaries with string
keys become association lists, `pathlib.Path` values become plain strings
joined with `"/"`.  The module-level `settings` object and the module-level
`projects` store are passed explicitly.  The renderer subprocess and the
filesystem are external: they enter as oracle parameters (`RunOutcome` for the
subprocess result, `String → Bool` for path existence), and the handlers
return, besides their response dictionary and the store, the list of file
writes and of renderer invocations they perform, in order.
-/

namespace ManimMCP

/-- Segment as constructed and consumed by `server.py`: `add_segment`
(line 152) passes `id`, `description`, `manim_code` and `code_type` to the
constructor, and `generate_scene_code` (lines 28–29) reads `s.id`,
`s.manim_code` and `s.code_type`.  (The pydantic model in `models.py`
declares only the first three fields and silently drops `code_type`; that
divergence is recorded separately via `StoredSegment` below.) -/
structure Segment where
  id : String
  description : String
  manim_code : String
  code_type : String
deriving DecidableEq

/-- Project as declared in `models.py`: id, name, quality, optional
background color, ordered segment list, creation timestamp (opaque here). -/
structure Project where
  id : String
  name : String
  quality : String
  background_color : Option String
  segments : List Segment
  created_at : String
deriving DecidableEq

/-- Module-level store, `server.py` line 13: `projects: dict[str, Project]`,
keyed by project id. -/
abbrev Store := List (String × Project)

/-- Settings from `config.py`: output root, code directory, timeout in
seconds. -/
structure Settings where
  output_dir : String
  code_dir : String
  timeout : Nat

/-- Result of the `subprocess.run` call inside `run_manim`, seen from the
caller: it completed with an exit code and captured stderr, it hit the
configured timeout, or it raised some other exception. -/
inductive RunOutcome where
  | completed (returncode : Int) (stderr : String)
  | timedOut
  | raised (msg : String)

/-- Values appearing in the handlers' response dictionaries. -/
inductive PyVal where
  | str (s : String)
  | int (n : Nat)
  | pyNone
deriving DecidableEq

/-- A handler response: a Python dict with string keys. -/
abbrev Dict := List (String × PyVal)

/-- Working-set selection, `server.py` lines 22–25: if a (truthy) segment id is supplied, keep the
segments carrying it; an empty string is falsy in Python, so it selects the
full list, as does `None`. -/
def select (segments : List Segment) (segment_id : Option String) : List Segment :=
  match segment_id with
  | some sid => if sid = "" then segments else segments.filter (fun s => s.id == sid)
  | none => segments

/-- Python `code.split("\n")` over a character list: cut at every newline;
the empty text yields one empty piece. -/
def splitNewlineChars : List Char → List (List Char)
  | [] => [[]]
  | c :: cs =>
    let rest := splitNewlineChars cs
    if c = '\n' then [] :: rest
    else
      match rest with
      | [] => [[c]]
      | l :: ls => (c :: l) :: ls

/-- Python `code.split("\n")`: the lines of `code`, newline separators
removed, preserving empty pieces. -/
def split_newline (code : String) : List String :=
  (splitNewlineChars code.data).map (fun l => String.mk l)

/-- Python `line.strip()` is falsy exactly when every character of the line
is whitespace. -/
def isBlankLine (line : String) : Bool :=
  line.data.all Char.isWhitespace

/-- Indentation helper, `server.py` lines 31–34 (`indent_code`): indent every line whose
stripped form is non-empty by `spaces` spaces; whitespace-only lines pass
through unchanged.  The Python default for `spaces` is 8; call sites pass 8
explicitly here. -/
def indent_code (code : String) (spaces : Nat) : String :=
  let indent := String.mk (List.replicate spaces ' ')
  let lines := split_newline code
  String.intercalate "\n" (lines.map (fun line => if isBlankLine line then line else indent ++ line))

/-- Scene assembly, `server.py` lines 15–49 (`generate_scene_code`): select the working set,
partition by `code_type`, join preamble fragments and 8-space-indented
construct fragments with blank lines, and assemble header, optional preamble
block and the synthesized class, separated by blank lines, with a trailing
newline. -/
def generate_scene_code (project : Project) (segment_id : Option String) : String :=
  let segments := select project.segments segment_id
  let preamble_segments := (segments.filter (fun s => s.code_type == "preamble")).map (fun s => s.manim_code)
  let construct_segments := (segments.filter (fun s => s.code_type == "construct")).map (fun s => s.manim_code)
  let preamble_code := String.intercalate "\n\n" preamble_segments
  let construct_code := String.intercalate "\n\n" (construct_segments.map (fun c => indent_code c 8))
  let parts : List String := ["from manim import *"]
  let parts := if preamble_code = "" then parts else parts ++ [preamble_code]
  let parts := parts ++ ["class GeneratedScene(Scene):\n    def construct(self):\n" ++ construct_code]
  String.intercalate "\n\n" parts ++ "\n"

/-- Quality table of `run_manim`, `server.py` lines 58–64: `dict.get` falling back to
the medium entry `(m, 720p30)` for unrecognized keys. -/
def quality_map_get (quality : String) : String × String :=
  if quality = "low_quality" then ("l", "480p15")
  else if quality = "medium_quality" then ("m", "720p30")
  else if quality = "high_quality" then ("h", "1080p60")
  else if quality = "fourk_quality" then ("k", "2160p60")
  else ("m", "720p30")

/-- Renderer command line, `server.py` lines 66–75. -/
def manim_cmd (st : Settings) (scene_file output_name quality : String) (preview_mode : Bool) : List String :=
  let base := ["manim", "render", scene_file, "GeneratedScene",
    "-q", (quality_map_get quality).1, "-o", output_name, "--media_dir", st.output_dir]
  if preview_mode then base ++ ["-s"] else base

/-- Artifact path resolution, `server.py` lines 85–91: the path where the renderer is expected to have
placed its artifact, keyed on the fixed class name `GeneratedScene`. -/
def expected_output_path (st : Settings) (output_name quality_folder : String) (preview_mode : Bool) : String :=
  if preview_mode then
    st.output_dir ++ "/images/GeneratedScene/" ++ output_name ++ ".png"
  else
    st.output_dir ++ "/videos/GeneratedScene/" ++ quality_folder ++ "/" ++ output_name ++ ".mp4"

/-- Renderer invocation, `server.py` lines 51–102 (`run_manim`): classify the subprocess outcome;
after a zero exit, resolve the expected artifact path and check existence. -/
def run_manim (st : Settings) (fsExists : String → Bool) (outcome : RunOutcome)
    (scene_file output_name quality : String) (preview_mode : Bool) :
    Bool × String × Option String :=
  let quality_folder := (quality_map_get quality).2
  let _cmd := manim_cmd st scene_file output_name quality preview_mode
  match outcome with
  | .timedOut => (false, "Render timed out after " ++ toString st.timeout ++ " seconds", none)
  | .raised msg => (false, "Unexpected error: " ++ msg, none)
  | .completed returncode stderr =>
    if returncode ≠ 0 then
      (false, "Manim error: " ++ stderr, none)
    else
      let output_path := expected_output_path st output_name quality_folder preview_mode
      if fsExists output_path then
        (true, "Render successful", some output_path)
      else
        (false, "Render completed but output not found at " ++ output_path, none)

/-- One invocation of `run_manim` by a handler, with the arguments it passed. -/
structure RunCall where
  scene_file : String
  output_name : String
  quality : String
  preview_mode : Bool
deriving DecidableEq

/-- What a handler call produced: the response dict, the store afterwards,
the program files written `(path, contents)` and the renderer invocations,
in order. -/
structure HandlerOut where
  resp : Dict
  store : Store
  writes : List (String × String)
  calls : List RunCall
deriving DecidableEq

/-- Interpolation of an optional string as Python does in an f-string:
the value None prints as the text `None`. -/
def pyInterp : Option String → String
  | some s => s
  | none => "None"

/-- Lift `str | None` into a dict value. -/
def pyOfOpt : Option String → PyVal
  | some s => .str s
  | none => .pyNone

/-- Preview handler, `server.py` lines 166–205: look up the project, reject an
empty segment list, assemble the scene code, write it to
`<code_dir>/<project_id>_preview.py`, invoke the renderer in preview mode
with output name `<project_id>_preview`, and shape the response. -/
def preview (st : Settings) (fsExists : String → Bool) (outcome : RunOutcome)
    (store : Store) (project_id : String) (segment_id : Option String) : HandlerOut :=
  match store.lookup project_id with
  | none => ⟨[("error", .str ("Project '" ++ project_id ++ "' not found"))], store, [], []⟩
  | some project =>
    if project.segments.isEmpty then
      ⟨[("error", .str "Project has no segments. Use add_segment first")], store, [], []⟩
    else
      let scene_code := generate_scene_code project segment_id
      let scene_file := st.code_dir ++ "/" ++ project.id ++ "_preview.py"
      let r := run_manim st fsExists outcome scene_file (project.id ++ "_preview") project.quality true
      let resp : Dict :=
        if r.1 then
          [("preview_path", pyOfOpt r.2.2), ("project_id", .str project_id),
           ("message", .str "Preview generated successfully")]
        else
          [("error", .str r.2.1)]
      ⟨resp, store, [(scene_file, scene_code)], [⟨scene_file, project.id ++ "_preview", project.quality, true⟩]⟩

/-- Render handler, `server.py` lines 242–273: like `preview` but over the full
segment list, writing `<code_dir>/<project_id>_final.py`, invoking in final
mode — with output name `project.id` (line 265). -/
def render (st : Settings) (fsExists : String → Bool) (outcome : RunOutcome)
    (store : Store) (project_id : String) : HandlerOut :=
  match store.lookup project_id with
  | none => ⟨[("error", .str ("Project '" ++ project_id ++ "' not found"))], store, [], []⟩
  | some project =>
    if project.segments.isEmpty then
      ⟨[("error", .str "Project has no segments. Use add_segment first.")], store, [], []⟩
    else
      let scene_code := generate_scene_code project none
      let scene_file := st.code_dir ++ "/" ++ project.id ++ "_final.py"
      let r := run_manim st fsExists outcome scene_file project.id project.quality false
      let resp : Dict :=
        if r.1 then
          [("video_path", pyOfOpt r.2.2), ("message", .str ("Video rendered: " ++ pyInterp r.2.2))]
        else
          [("error", .str r.2.1)]
      ⟨resp, store, [(scene_file, scene_code)], [⟨scene_file, project.id, project.quality, false⟩]⟩

/-- In-place mutation of the segment found by
`next((s for s in project.segments if s.id == segment_id), None)`: the first
segment carrying the id is replaced, positions unchanged. -/
def updateFirst (segments : List Segment) (segment_id : String) (f : Segment → Segment) : List Segment :=
  match segments with
  | [] => []
  | s :: rest => if s.id == segment_id then f s :: rest else s :: updateFirst rest segment_id f

/-- Replace the project stored under a key (Python mutates the aliased
`Project` object held by the dict). -/
def storeSet (store : Store) (project_id : String) (p : Project) : Store :=
  store.map (fun kv => if kv.1 == project_id then (kv.1, p) else kv)

/-- Edit handler, `server.py` lines 207–238 (`edit_segment`): look up project then segment;
on success overwrite `manim_code` (and `description` when supplied) in place. -/
def edit_segment (store : Store) (project_id segment_id manim_code : String)
    (description : Option String) : Dict × Store :=
  match store.lookup project_id with
  | none => ([("error", .str ("Project '" ++ project_id ++ "' not found"))], store)
  | some project =>
    match project.segments.find? (fun s => s.id == segment_id) with
    | none => ([("error", .str ("Segment '" ++ segment_id ++ "' not found"))], store)
    | some segment =>
      let segment' := { segment with
        manim_code := manim_code,
        description := match description with | some d => d | none => segment.description }
      let project' := { project with segments := updateFirst project.segments segment_id (fun _ => segment') }
      ([("segment_id", .str segment.id), ("message", .str "Segment updated successfully")],
        storeSet store project_id project')

/-- Segment exactly as declared in `models.py`: `id`, `description`,
`manim_code` — no `code_type` field. -/
structure StoredSegment where
  id : String
  description : String
  manim_code : String
deriving DecidableEq

/-- The segment actually stored by `add_segment` (`server.py` line 152):
`Segment(manim_code=…, description=…, code_type=…)` against the pydantic
model of `models.py`, whose default configuration ignores unknown keyword
arguments — so the `code_type` argument is dropped and no field records it.
The generated `id` is passed explicitly here. -/
def StoredSegment.ofKwargs (id manim_code description code_type : String) : StoredSegment :=
  let _ := code_type
  { id := id, description := description, manim_code := manim_code }

/-! Concrete fixtures used by witnesses and counterexamples. -/

/-- Concrete settings: output root `/out`, code dir `/code`, timeout 300 s. -/
def stTest : Settings := ⟨"/out", "/code", 300⟩

/-- Filesystem oracle on which every path exists. -/
def fsAll : String → Bool := fun _ => true

/-- A single construct-tagged segment. -/
def segA : Segment := ⟨"seg_a", "", "self.play(Write(x))", "construct"⟩

/-- A project with one construct segment. -/
def projA : Project := ⟨"proj1", "Demo", "medium_quality", none, [segA], "t0"⟩

/-- A project with no segments. -/
def projEmpty : Project := ⟨"proj0", "Empty", "medium_quality", none, [], "t0"⟩

/-- A store holding `projA` and `projEmpty`. -/
def storeTest : Store := [("proj1", projA), ("proj0", projEmpty)]

/-! Helper lemmas. -/

/-- Joining an empty list yields the empty string. -/
theorem intercalate_nil (s : String) : String.intercalate s [] = "" := rfl

/-- Joining a two-element list. -/
theorem intercalate_two (s a b : String) : String.intercalate s [a, b] = a ++ s ++ b := rfl

/-- Joining a three-element list. -/
theorem intercalate_three (s a b c : String) :
    String.intercalate s [a, b, c] = a ++ s ++ b ++ s ++ c := rfl

/-- Unfolding of `indent_code` at the default width of 8, with the margin
spelled out. -/
theorem indent_code_eight (c : String) :
    indent_code c 8 =
      String.intercalate "\n"
        ((split_newline c).map (fun line => if isBlankLine line then line else "        " ++ line)) := rfl

/-- Under distinct segment ids, filtering by the id of a member yields
exactly that member. -/
theorem filter_eq_singleton_of_nodup {segs : List Segment} {s : Segment} {sid : String}
    (hnd : (segs.map Segment.id).Nodup) (hs : s ∈ segs) (hid : s.id = sid) :
    segs.filter (fun t => t.id == sid) = [s] := by
  induction segs with
  | nil => cases hs
  | cons t rest ih =>
    simp only [List.map_cons, List.nodup_cons, List.mem_map] at hnd
    rcases List.mem_cons.mp hs with rfl | hmem
    · have hrest : rest.filter (fun t => t.id == sid) = [] := by
        rw [List.filter_eq_nil_iff]
        intro u hu
        simp only [beq_iff_eq]
        intro hcontra
        exact hnd.1 ⟨u, hu, by rw [hcontra, hid]⟩
      simp [List.filter_cons, hid, hrest]
    · have htid : (t.id == sid) = false := by
        simp only [beq_eq_false_iff_ne]
        intro hcontra
        exact hnd.1 ⟨s, hmem, by rw [hid, hcontra]⟩
      simp [List.filter_cons, htid, ih hnd.2 hmem]

/-! Claim theorems. -/

/-- C1: for a project with default quality holding exactly a preamble segment
`class Helper: pass` and a construct segment `self.play(Write(x))`,
`generate_scene_code` with no target segment identity returns, byte for byte,
the import header, a blank line, the preamble code, a blank line, the class
and method header, the construct line indented by 8 spaces, and a single
trailing newline. -/
theorem generate_scene_code_demo_scenario :
    generate_scene_code
      ⟨"proj_demo", "Demo", "medium_quality", none,
        [⟨"seg_1", "", "class Helper: pass", "preamble"⟩,
         ⟨"seg_2", "", "self.play(Write(x))", "construct"⟩], "t0"⟩ none =
      "from manim import *\n\nclass Helper: pass\n\nclass GeneratedScene(Scene):\n    def construct(self):\n        self.play(Write(x))\n" := by
  decide

/-- C2 (code-bug evidence): the segment value stored by `add_segment` is the
same whatever accepted placement tag is passed — the pydantic model of
`models.py` declares no `code_type` field and drops the keyword argument, so
no stored field records the tag and `generate_scene_code`'s read of
`s.code_type` has nothing to read. -/
theorem storedSegment_independent_of_code_type
    (id manim_code description t₁ t₂ : String) :
    StoredSegment.ofKwargs id manim_code description t₁ =
      StoredSegment.ofKwargs id manim_code description t₂ := rfl

/-- C3 (counterexample to the claim as stated): previewing with a segment
identity carried by no segment of the project does not fail with a
NotFound-style error: with a renderer oracle that exits zero and an artifact
that exists, the response carries no `error` key and reports success. -/
theorem preview_missing_segment_id_is_not_an_error :
    ((preview stTest fsAll (.completed 0 "") storeTest "proj1" (some "seg_zzz")).resp.lookup
        "error" = none) ∧
    ((preview stTest fsAll (.completed 0 "") storeTest "proj1" (some "seg_zzz")).resp.lookup
        "message" = some (.str "Preview generated successfully")) := by
  decide

/-- C3 (amended): selection behaviour of assembly: with a non-empty target
identity carried by no segment, the working set is empty and the result is
the fixed empty-selection program rather than an error; with a target
identity carried by a segment, under distinct segment ids, the working set is
exactly that single segment; with no target identity, the working set is the
project's full segment sequence in order. -/
theorem select_working_set (p : Project) (sid : String) (hsid : sid ≠ "") :
    ((∀ s ∈ p.segments, s.id ≠ sid) →
        select p.segments (some sid) = [] ∧
        generate_scene_code p (some sid) =
          "from manim import *\n\nclass GeneratedScene(Scene):\n    def construct(self):\n\n") ∧
    (∀ s ∈ p.segments, s.id = sid → (p.segments.map Segment.id).Nodup →
        select p.segments (some sid) = [s]) ∧
    select p.segments none = p.segments := by
  refine ⟨?_, ?_, rfl⟩
  · intro hmiss
    have hsel : select p.segments (some sid) = [] := by
      simp only [select, if_neg hsid, List.filter_eq_nil_iff]
      intro s hs
      simp only [beq_iff_eq]
      exact hmiss s hs
    refine ⟨hsel, ?_⟩
    unfold generate_scene_code
    rw [hsel]
    rfl
  · intro s hs hid hnd
    simp only [select, if_neg hsid]
    exact filter_eq_singleton_of_nodup hnd hs hid

/-- C3 witness: the amended statement applied to the one-segment project
`projA`, with the missing identity `seg_zzz` and the present identity
`seg_a`. -/
theorem select_working_set_witness :
    (select projA.segments (some "seg_zzz") = [] ∧
      generate_scene_code projA (some "seg_zzz") =
        "from manim import *\n\nclass GeneratedScene(Scene):\n    def construct(self):\n\n") ∧
    select projA.segments (some "seg_a") = [segA] ∧
    select projA.segments none = projA.segments :=
  ⟨(select_working_set projA "seg_zzz" (by decide)).1 (by decide),
   (select_working_set projA "seg_a" (by decide)).2.1 segA (by decide) (by decide) (by decide),
   (select_working_set projA "seg_zzz" (by decide)).2.2⟩

/-- C4: assembling the full project places the code of the preamble-tagged
segments, in original relative order and unindented, joined by single blank
lines, after the import header and before the `class GeneratedScene(Scene):`
line (the preamble block and its separating blank line appear exactly when
the joined preamble code is non-empty), and places the code of the
construct-tagged segments, in original relative order, after the method
header, each fragment with every non-blank line indented by exactly 8 spaces
and blank lines passed through unindented, fragments joined by single blank
lines, with a single trailing newline. -/
theorem generate_scene_code_full_layout (p : Project) :
    generate_scene_code p none =
      "from manim import *" ++ "\n\n" ++
      (if String.intercalate "\n\n"
            ((p.segments.filter (fun s => s.code_type == "preamble")).map (fun s => s.manim_code)) = ""
        then ""
        else
          String.intercalate "\n\n"
            ((p.segments.filter (fun s => s.code_type == "preamble")).map (fun s => s.manim_code)) ++
          "\n\n") ++
      "class GeneratedScene(Scene):\n    def construct(self):\n" ++
      String.intercalate "\n\n"
        (((p.segments.filter (fun s => s.code_type == "construct")).map (fun s => s.manim_code)).map
          (fun c =>
            String.intercalate "\n"
              ((split_newline c).map
                (fun line => if isBlankLine line then line else "        " ++ line)))) ++
      "\n" := by
  by_cases hpc :
      String.intercalate "\n\n"
        ((p.segments.filter (fun s => s.code_type == "preamble")).map (fun s => s.manim_code)) = ""
  · simp only [generate_scene_code, select, indent_code_eight, hpc, if_pos, if_true,
      List.cons_append, List.singleton_append, List.nil_append,
      intercalate_two, String.append_assoc, String.append_empty, String.empty_append]
  · simp only [generate_scene_code, select, indent_code_eight, hpc, if_neg, if_false,
      List.cons_append, List.singleton_append, List.nil_append,
      intercalate_three, String.append_assoc, String.append_empty, String.empty_append]

/-- C5 (counterexample to the claim as stated): `render` passes the bare
project identity as the output base name — for the stored project `proj1`
the single renderer invocation carries output name `proj1`, which is not
`proj1_final`. -/
theorem render_output_name_lacks_final_suffix :
    (render stTest fsAll (.completed 0 "") storeTest "proj1").calls.map RunCall.output_name =
      ["proj1"] ∧
    ("proj1" : String) ≠ "proj1" ++ "_final" := by
  decide

/-- C5 (amended): for a stored project with at least one segment, preview
writes the program file `<code_dir>/<id>_preview.py` and passes output base
name `<id>_preview` to the renderer, while render writes
`<code_dir>/<id>_final.py` but passes the bare project identity as the
output base name. -/
theorem preview_render_file_names (st : Settings) (fs : String → Bool)
    (oc : RunOutcome) (store : Store) (pid : String) (sid : Option String)
    (p : Project) (h : store.lookup pid = some p) (hne : p.segments ≠ []) :
    (preview st fs oc store pid sid).writes.map Prod.fst =
      [st.code_dir ++ "/" ++ p.id ++ "_preview.py"] ∧
    (preview st fs oc store pid sid).calls.map RunCall.output_name = [p.id ++ "_preview"] ∧
    (render st fs oc store pid).writes.map Prod.fst =
      [st.code_dir ++ "/" ++ p.id ++ "_final.py"] ∧
    (render st fs oc store pid).calls.map RunCall.output_name = [p.id] := by
  have hemp : p.segments.isEmpty = false := by
    rw [List.isEmpty_eq_false_iff_exists_mem]
    cases hsegs : p.segments with
    | nil => exact absurd hsegs hne
    | cons a l => exact ⟨a, List.mem_cons_self a l⟩
  refine ⟨?_, ?_, ?_, ?_⟩ <;> simp [preview, render, h, hemp]

/-- C5 witness: the amended statement applied to the store holding `projA`. -/
theorem preview_render_file_names_witness :
    (preview stTest fsAll (.completed 0 "") storeTest "proj1" none).writes.map Prod.fst =
      [stTest.code_dir ++ "/" ++ projA.id ++ "_preview.py"] ∧
    (preview stTest fsAll (.completed 0 "") storeTest "proj1" none).calls.map
      RunCall.output_name = [projA.id ++ "_preview"] ∧
    (render stTest fsAll (.completed 0 "") storeTest "proj1").writes.map Prod.fst =
      [stTest.code_dir ++ "/" ++ projA.id ++ "_final.py"] ∧
    (render stTest fsAll (.completed 0 "") storeTest "proj1").calls.map
      RunCall.output_name = [projA.id] :=
  preview_render_file_names stTest fsAll (.completed 0 "") storeTest "proj1" none projA
    (by decide) (by decide)

/-- C6: `run_manim`'s quality table maps `low_quality` to `(l, 480p15)`,
`medium_quality` to `(m, 720p30)`, `high_quality` to `(h, 1080p60)` and
`fourk_quality` to `(k, 2160p60)`, and every other quality string falls back
to the medium entry `(m, 720p30)` rather than failing. -/
theorem quality_map_levels (q : String)
    (h : q ≠ "low_quality" ∧ q ≠ "medium_quality" ∧ q ≠ "high_quality" ∧ q ≠ "fourk_quality") :
    quality_map_get "low_quality" = ("l", "480p15") ∧
    quality_map_get "medium_quality" = ("m", "720p30") ∧
    quality_map_get "high_quality" = ("h", "1080p60") ∧
    quality_map_get "fourk_quality" = ("k", "2160p60") ∧
    quality_map_get q = ("m", "720p30") := by
  obtain ⟨h1, h2, h3, h4⟩ := h
  refine ⟨rfl, rfl, rfl, rfl, ?_⟩
  simp [quality_map_get, h1, h2, h3, h4]

/-- C6 witness: the statement applied to the unrecognized quality `ultra`. -/
theorem quality_map_levels_witness :
    quality_map_get "low_quality" = ("l", "480p15") ∧
    quality_map_get "medium_quality" = ("m", "720p30") ∧
    quality_map_get "high_quality" = ("h", "1080p60") ∧
    quality_map_get "fourk_quality" = ("k", "2160p60") ∧
    quality_map_get "ultra" = ("m", "720p30") :=
  quality_map_levels "ultra" (by decide)

/-- C7: when the renderer exits zero, `run_manim` resolves the expected
artifact path (`images/GeneratedScene/<output_name>.png` in preview mode,
`videos/GeneratedScene/<quality_folder>/<output_name>.mp4` in final mode,
under the output root): if that path is absent it returns a failure naming
the expected-but-missing path, never a success; if it is present it returns
success carrying exactly that path. -/
theorem run_manim_zero_exit_checks_output (st : Settings) (fs : String → Bool)
    (stderr scene_file output_name quality : String) (pm : Bool) :
    (fs (expected_output_path st output_name (quality_map_get quality).2 pm) = false →
      run_manim st fs (.completed 0 stderr) scene_file output_name quality pm =
        (false,
          "Render completed but output not found at " ++
            expected_output_path st output_name (quality_map_get quality).2 pm,
          none)) ∧
    (fs (expected_output_path st output_name (quality_map_get quality).2 pm) = true →
      run_manim st fs (.completed 0 stderr) scene_file output_name quality pm =
        (true, "Render successful",
          some (expected_output_path st output_name (quality_map_get quality).2 pm))) := by
  constructor <;> intro h <;> simp [run_manim, h]

/-- C7 witness: the statement applied at a concrete invocation in both modes
of the filesystem oracle. -/
theorem run_manim_zero_exit_checks_output_witness :
    ((fun _ => false : String → Bool)
        (expected_output_path stTest "proj1_preview" (quality_map_get "medium_quality").2 true) =
      false) ∧
    run_manim stTest (fun _ => false) (.completed 0 "") "/code/proj1_preview.py"
        "proj1_preview" "medium_quality" true =
      (false,
        "Render completed but output not found at " ++
          expected_output_path stTest "proj1_preview" (quality_map_get "medium_quality").2 true,
        none) := by
  refine ⟨rfl, ?_⟩
  exact (run_manim_zero_exit_checks_output stTest (fun _ => false) "" "/code/proj1_preview.py"
    "proj1_preview" "medium_quality" true).1 rfl

/-- C8: `edit_segment` on an existing project and a segment identity carried
by no segment returns the NotFound-style error mapping and leaves the store
— hence the project's segment list, its contents, identities, tags and order
— unchanged. -/
theorem edit_segment_missing_segment (store : Store) (pid sid code : String)
    (desc : Option String) (p : Project) (h : store.lookup pid = some p)
    (hmiss : ∀ s ∈ p.segments, s.id ≠ sid) :
    edit_segment store pid sid code desc =
      ([("error", .str ("Segment '" ++ sid ++ "' not found"))], store) := by
  have hfind : p.segments.find? (fun s => s.id == sid) = none := by
    rw [List.find?_eq_none]
    intro s hs
    simpa using hmiss s hs
  simp [edit_segment, h, hfind]

/-- C8 witness: the statement applied to `projA` with the absent segment
identity `seg_zzz`. -/
theorem edit_segment_missing_segment_witness :
    edit_segment storeTest "proj1" "seg_zzz" "new code" none =
      ([("error", .str ("Segment '" ++ "seg_zzz" ++ "' not found"))], storeTest) :=
  edit_segment_missing_segment storeTest "proj1" "seg_zzz" "new code" none projA
    (by decide) (by decide)

/-- C9: on a stored project whose segment list is empty, `render` returns the
InvalidState-style error mapping and performs no filesystem writes and no
renderer invocation; `preview` does the same (with its own message, which
lacks the trailing period). -/
theorem preview_render_empty_project (st : Settings) (fs : String → Bool)
    (oc : RunOutcome) (store : Store) (pid : String) (sid : Option String)
    (p : Project) (h : store.lookup pid = some p) (he : p.segments = []) :
    render st fs oc store pid =
      ⟨[("error", .str "Project has no segments. Use add_segment first.")], store, [], []⟩ ∧
    preview st fs oc store pid sid =
      ⟨[("error", .str "Project has no segments. Use add_segment first")], store, [], []⟩ := by
  constructor <;> simp [preview, render, h, he]

/-- C9 witness: the statement applied to the empty project `proj0`. -/
theorem preview_render_empty_project_witness :
    render stTest fsAll (.completed 0 "") storeTest "proj0" =
      ⟨[("error", .str "Project has no segments. Use add_segment first.")], storeTest, [], []⟩ ∧
    preview stTest fsAll (.completed 0 "") storeTest "proj0" none =
      ⟨[("error", .str "Project has no segments. Use add_segment first")], storeTest, [], []⟩ :=
  preview_render_empty_project stTest fsAll (.completed 0 "") storeTest "proj0" none projEmpty
    (by decide) (by decide)

/-- C10: `preview` and `render` leave the store — and hence every stored
project, its name, quality, background color and segment list — exactly as
it was, whatever the oracle outcomes; and the only content either writes
outside the store is the output of `generate_scene_code` for the looked-up
project (over the optional segment scope for preview, the full project for
render). -/
theorem preview_render_leave_store_unchanged (st : Settings) (fs : String → Bool)
    (oc : RunOutcome) (store : Store) (pid : String) (sid : Option String) :
    (preview st fs oc store pid sid).store = store ∧
    (render st fs oc store pid).store = store ∧
    (∀ w ∈ (preview st fs oc store pid sid).writes,
        ∃ p, store.lookup pid = some p ∧ w.2 = generate_scene_code p sid) ∧
    (∀ w ∈ (render st fs oc store pid).writes,
        ∃ p, store.lookup pid = some p ∧ w.2 = generate_scene_code p none) := by
  cases hl : store.lookup pid with
  | none => simp [preview, render, hl]
  | some p =>
    by_cases hemp : p.segments.isEmpty <;>
      simp [preview, render, hl, hemp]

/-- C10 witness: the statement applied to the store holding `projA`, under a
successful renderer oracle. -/
theorem preview_render_leave_store_unchanged_witness :
    (preview stTest fsAll (.completed 0 "") storeTest "proj1" none).store = storeTest ∧
    (render stTest fsAll (.completed 0 "") storeTest "proj1").store = storeTest :=
  ⟨(preview_render_leave_store_unchanged stTest fsAll (.completed 0 "") storeTest "proj1" none).1,
   (preview_render_leave_store_unchanged stTest fsAll (.completed 0 "") storeTest "proj1" none).2.1⟩

end ManimMCP
